import Mathlib

/-!
# Verification of the quaint query builder and connector layer

A shallow embedding of the parts of the repository the claims touch:

* the SQLite dialect visitor (`src/visitor/sqlite.rs`) together with the
  query AST and builder traits it consumes (`src/ast/compare.rs`; the AST
  node types and the generic `Visitor` trait with its default `visit_*`
  methods are not present under `src/`, so they are modelled from the
  specification, pinned by the test module of `src/visitor/sqlite.rs` and
  the doctests of `src/ast/compare.rs`);
* the optional socket-timeout wrapper (`src/connector/timeout.rs`,
  duplicated as `Mysql::timeout` in `src/connector/mysql.rs`);
* the SQLite parameter conversion (`src/connector/sqlite/conversion.rs`);
* the PostgreSQL URL option parser (`src/connector/postgres/config.rs`).

Strings are rendered exactly as the source renders them; bound parameters
are collected in left-to-right visit order by returning, from every visit
function, the pair of the emitted text and the list of values appended
while emitting it.
-/

/- ## Error taxonomy (`src/error.rs` is not under `src/`).

Modelled from the spec: §7 lists the normalized error kinds; only the kinds
the claims touch are carried here.  The source `Error` couples a kind with
an optional preserved original message (`Error::builder(kind)` plus
`set_original_message`). -/

/-- Modelled from the spec: the normalized error kinds of §7 that the
claims exercise (`Timeout`, `ConversionError{message}`,
`InvalidConnectionArguments`). -/
inductive ErrorKind where
  | timeoutKind
  | conversionError (message : String)
  | invalidConnectionArguments
  deriving DecidableEq, Repr

/-- Modelled from the spec: a normalized error, a kind plus the optional
verbatim original message (§7 "The original driver code and message are
preserved verbatim alongside the normalized kind"). -/
structure Error where
  kind : ErrorKind
  originalMessage : Option String
  deriving DecidableEq, Repr

/-- `Error::builder(kind).build()`: an error with no original message. -/
def Error.build (kind : ErrorKind) : Error := ⟨kind, none⟩

/- ## The value model of the old visitor revision

`ParameterizedValue` is the bound-parameter type of the revision that owns
`src/visitor/sqlite.rs`: its `ToSql` impl there shows exactly the variants
`Null`, `Integer(i64)`, `Real(f64)`, `Text(String)`, `Boolean(bool)`.
The `f64` payload of `Real` is modelled as a rational number: no claim
depends on floating-point rounding, only on which value is appended. -/

/-- The bound-parameter values of the visitor revision
(`src/visitor/sqlite.rs` lines 35-47). -/
inductive ParameterizedValue where
  | null
  | integer (i : Int)
  | real (r : Rat)
  | text (s : String)
  | boolean (b : Bool)
  deriving DecidableEq, Repr

/- ## The query AST

Modelled from the spec: §3 "Column, Table, Row", "Expression",
"Compare", "ConditionTree" and "Query"; the node definitions themselves
are not under `src/`.  Only the constructs the claims reach are carried:
aliases, defaults, joins, CTEs, ordering, grouping, sub-selects and the
non-`Select` query kinds are omitted. -/

/-- Modelled from the spec: a column, `(name, optional table-qualifier)`;
the claims only build unqualified columns, and alias/default are unused. -/
structure Column where
  name : String
  deriving DecidableEq, Repr

/-- Modelled from the spec: a table, `(name, optional database/schema
qualifier)`; join clauses and CTEs are not reached by any claim. -/
structure Table where
  database : Option String
  name : String
  deriving DecidableEq, Repr

mutual
/-- Modelled from the spec: a value position in the AST - a literal to be
bound, a column reference, or a row of values (`(a,b) IN ...`); the
sub-select variant is not reached by any claim. -/
inductive DatabaseValue where
  | parameterized (v : ParameterizedValue)
  | column (c : Column)
  | row (r : Row)

/-- Modelled from the spec: an ordered sequence of value expressions
(`Vec<DatabaseValue>` inlined as a list so the group stays mutually
inductive). -/
inductive Row where
  | nil
  | cons (head : DatabaseValue) (tail : Row)
end

/-- The comparison node, translated variant for variant from
`src/ast/compare.rs` lines 4-42 (the `Like` family carries the literal
pattern substring; the visitor brackets it with `%`). -/
inductive Compare where
  | equals (l r : DatabaseValue)
  | notEquals (l r : DatabaseValue)
  | lessThan (l r : DatabaseValue)
  | lessThanOrEquals (l r : DatabaseValue)
  | greaterThan (l r : DatabaseValue)
  | greaterThanOrEquals (l r : DatabaseValue)
  | inSelection (l r : DatabaseValue)
  | notInSelection (l r : DatabaseValue)
  | like (l : DatabaseValue) (pattern : String)
  | notLike (l : DatabaseValue) (pattern : String)
  | beginsWith (l : DatabaseValue) (pattern : String)
  | notBeginsWith (l : DatabaseValue) (pattern : String)
  | endsInto (l : DatabaseValue) (pattern : String)
  | notEndsInto (l : DatabaseValue) (pattern : String)
  | null (v : DatabaseValue)
  | notNull (v : DatabaseValue)
  | between (v l r : DatabaseValue)
  | notBetween (v l r : DatabaseValue)

mutual
/-- Modelled from the spec: §3 `ConditionTree`, recursive over boolean
children with `Single` and `NoCondition` leaves. -/
inductive ConditionTree where
  | and (l r : Expression)
  | or (l r : Expression)
  | not (e : Expression)
  | single (e : Expression)
  | noCondition

/-- Modelled from the spec: the expression sum; the claims reach the
`Value`, `Compare` and `ConditionTree` variants. -/
inductive Expression where
  | value (v : DatabaseValue)
  | compare (c : Compare)
  | conditionTree (t : ConditionTree)
end

/-- Modelled from the spec: §3 `Select` - primary table (or none), columns
list (empty = asterisk of the primary table), condition, limit, offset;
joins, grouping, having, ordering, CTEs and locking are not reached by any
claim. -/
structure Select where
  table : Option Table
  columns : List DatabaseValue
  conditions : Option ConditionTree
  limit : Option Nat
  offset : Option Nat

/-- Modelled from the spec: §3 `Query`; the claims only build `Select`
queries, the other kinds are omitted. -/
inductive Query where
  | select (s : Select)

/- ## Builder surface -/

/-- `Select::from(table)`: a select of everything from one table
(the name `from` is reserved in Lean). -/
def Select.fromTable (t : Table) : Select :=
  { table := some t, columns := [], conditions := none, limit := none, offset := none }

/-- `Select::default()`: no table, no columns. -/
def Select.default : Select :=
  { table := none, columns := [], conditions := none, limit := none, offset := none }

/-- `Select::value(v)`: push a value into the projection list. -/
def Select.value (s : Select) (v : DatabaseValue) : Select :=
  { s with columns := s.columns ++ [v] }

/-- `Select::column(c)`: push a column into the projection list. -/
def Select.colum (s : Select) (c : Column) : Select :=
  { s with columns := s.columns ++ [.column c] }

/-- `Select::so_that(conditions)`: install the `WHERE` condition tree. -/
def Select.so_that (s : Select) (t : ConditionTree) : Select :=
  { s with conditions := some t }

/-- `impl Into<ConditionTree> for Compare` (`src/ast/compare.rs` lines
44-49): a lone comparison becomes a `Single` node. -/
def Compare.intoConditionTree (c : Compare) : ConditionTree :=
  .single (.compare c)

/-- `impl Conjuctive for Compare`, `and` (`src/ast/compare.rs` lines
57-66). -/
def Compare.and (c : Compare) (other : Expression) : ConditionTree :=
  .and (.compare c) other

/-- `impl Conjuctive for Compare`, `or` (`src/ast/compare.rs` lines
68-76). -/
def Compare.or (c : Compare) (other : Expression) : ConditionTree :=
  .or (.compare c) other

/-- `impl Conjuctive for Compare`, `not` (`src/ast/compare.rs` lines
78-80). -/
def Compare.not (c : Compare) : ConditionTree :=
  .not (.compare c)

/-- Modelled from the spec: `Conjunctive` over "anything
Expression-like" (§4.2); the `impl Conjuctive for ConditionTree` is not
under `src/`.  Chaining `t.and(other)` re-wraps the already built tree as
the left child, which is what makes builder chains left-branching. -/
def ConditionTree.andThen (t : ConditionTree) (other : Expression) : ConditionTree :=
  .and (.conditionTree t) other

/-- Modelled from the spec: `Conjuctive::or` for `ConditionTree`. -/
def ConditionTree.orElse (t : ConditionTree) (other : Expression) : ConditionTree :=
  .or (.conditionTree t) other

/-- Modelled from the spec: `Conjuctive::not` for `ConditionTree`. -/
def ConditionTree.negate (t : ConditionTree) : ConditionTree :=
  .not (.conditionTree t)

/- The `comparable!` macro (`src/ast/compare.rs` lines 348-516) gives
string receivers every `Comparable` method by converting the receiver to a
`Column` and the column to a `DatabaseValue`.  Each method below is one
macro arm, with the receiver conversion inlined. -/

namespace Comparable

/-- `Comparable::equals` for a string receiver. -/
def equals (recv : String) (comparison : DatabaseValue) : Compare :=
  .equals (.column ⟨recv⟩) comparison

/-- `Comparable::not_equals` for a string receiver. -/
def not_equals (recv : String) (comparison : DatabaseValue) : Compare :=
  .notEquals (.column ⟨recv⟩) comparison

/-- `Comparable::less_than` for a string receiver. -/
def less_than (recv : String) (comparison : DatabaseValue) : Compare :=
  .lessThan (.column ⟨recv⟩) comparison

/-- `Comparable::less_than_or_equals` for a string receiver. -/
def less_than_or_equals (recv : String) (comparison : DatabaseValue) : Compare :=
  .lessThanOrEquals (.column ⟨recv⟩) comparison

/-- `Comparable::greater_than` for a string receiver. -/
def greater_than (recv : String) (comparison : DatabaseValue) : Compare :=
  .greaterThan (.column ⟨recv⟩) comparison

/-- `Comparable::greater_than_or_equals` for a string receiver. -/
def greater_than_or_equals (recv : String) (comparison : DatabaseValue) : Compare :=
  .greaterThanOrEquals (.column ⟨recv⟩) comparison

/-- `Comparable::in_selection` for a string receiver. -/
def in_selection (recv : String) (selection : DatabaseValue) : Compare :=
  .inSelection (.column ⟨recv⟩) selection

/-- `Comparable::not_in_selection` for a string receiver. -/
def not_in_selection (recv : String) (selection : DatabaseValue) : Compare :=
  .notInSelection (.column ⟨recv⟩) selection

/-- `Comparable::like` for a string receiver: the pattern is stored as the
literal substring. -/
def like (recv : String) (pattern : String) : Compare :=
  .like (.column ⟨recv⟩) pattern

/-- `Comparable::not_like` for a string receiver. -/
def not_like (recv : String) (pattern : String) : Compare :=
  .notLike (.column ⟨recv⟩) pattern

/-- `Comparable::begins_with` for a string receiver. -/
def begins_with (recv : String) (pattern : String) : Compare :=
  .beginsWith (.column ⟨recv⟩) pattern

/-- `Comparable::not_begins_with` for a string receiver. -/
def not_begins_with (recv : String) (pattern : String) : Compare :=
  .notBeginsWith (.column ⟨recv⟩) pattern

/-- `Comparable::ends_into` for a string receiver. -/
def ends_into (recv : String) (pattern : String) : Compare :=
  .endsInto (.column ⟨recv⟩) pattern

/-- `Comparable::not_ends_into` for a string receiver. -/
def not_ends_into (recv : String) (pattern : String) : Compare :=
  .notEndsInto (.column ⟨recv⟩) pattern

/-- `Comparable::is_null` for a string receiver. -/
def is_null (recv : String) : Compare :=
  .null (.column ⟨recv⟩)

/-- `Comparable::is_not_null` for a string receiver. -/
def is_not_null (recv : String) : Compare :=
  .notNull (.column ⟨recv⟩)

/-- `Comparable::between` for a string receiver. -/
def between (recv : String) (l r : DatabaseValue) : Compare :=
  .between (.column ⟨recv⟩) l r

/-- `Comparable::not_between` for a string receiver. -/
def not_between (recv : String) (l r : DatabaseValue) : Compare :=
  .notBetween (.column ⟨recv⟩) l r

end Comparable

/-- `"…".into()`: a text literal as a bindable value. -/
def dbText (s : String) : DatabaseValue := .parameterized (.text s)

/-- An integer literal as a bindable value. -/
def dbInt (i : Int) : DatabaseValue := .parameterized (.integer i)

/- ## The SQLite visitor

`C_PARAM = "?"` and `C_QUOTE` = the backtick (`src/visitor/sqlite.rs`
lines 12-14).  The traversal itself is the `Visitor` trait's default
methods, which are not under `src/`; it is modelled from the spec
(§4.3-§4.5) and pinned exactly by the expected strings of the test module
in `src/visitor/sqlite.rs`.  Each `visit_*` function returns the emitted
text together with the parameters appended while emitting it, in order;
concatenating the lists in emission order is the `add_parameter` discipline
of `src/visitor/sqlite.rs` lines 16-18. -/

namespace Sqlite

/-- Modelled from the spec: §4.3 identifier quoting - wrap in the dialect
quote character (the SQLite backtick). -/
def delimited_identifier (ident : String) : String :=
  "`" ++ ident ++ "`"

/-- Modelled from the spec: qualified identifiers are joined by `.`,
each part individually quoted. -/
def visit_table (t : Table) : String :=
  match t.database with
  | some db => delimited_identifier db ++ "." ++ delimited_identifier t.name
  | none => delimited_identifier t.name

/-- Decimal rendering of a natural number (the effect of `format!("{}")`
on the limit/offset payload), with an explicit fuel argument so the
recursion is structural. -/
def natToDecimalAux (fuel n : Nat) (acc : List Char) : List Char :=
  match fuel with
  | 0 => acc
  | fuel + 1 =>
    if n = 0 then acc
    else natToDecimalAux fuel (n / 10) (Char.ofNat (48 + n % 10) :: acc)

/-- Decimal rendering of a natural number. -/
def natToDecimal (n : Nat) : String :=
  if n = 0 then "0" else ⟨natToDecimalAux n n []⟩

mutual
/-- Modelled from the spec: §4.3 binding discipline - a literal value is
replaced by `C_PARAM` and appended to the parameter list; a column renders
as its quoted identifier; a row as the parenthesized comma-joined list. -/
def visit_database_value : DatabaseValue → String × List ParameterizedValue
  | .parameterized v => ("?", [v])
  | .column c => (delimited_identifier c.name, [])
  | .row r =>
    let inner := visit_row_items r
    ("(" ++ inner.1 ++ ")", inner.2)

/-- Comma-join of the visited items of a row. -/
def visit_row_items : Row → String × List ParameterizedValue
  | .nil => ("", [])
  | .cons v .nil => visit_database_value v
  | .cons v (.cons w ws) =>
    let h := visit_database_value v
    let t := visit_row_items (.cons w ws)
    (h.1 ++ ", " ++ t.1, h.2 ++ t.2)
end

/-- Modelled from the spec: the rendering of each `Compare` variant, with
the operator spellings pinned by the tests and doctests; for the `Like`
family the bound value brackets the user pattern with `%` on the
appropriate sides, unescaped (§4.3 "Pattern escaping"); `IS NULL` /
`IS NOT NULL` bind no parameter (§4.3 "NULL lowering"). -/
def visit_compare : Compare → String × List ParameterizedValue
  | .equals l r =>
    let vl := visit_database_value l
    let vr := visit_database_value r
    (vl.1 ++ " = " ++ vr.1, vl.2 ++ vr.2)
  | .notEquals l r =>
    let vl := visit_database_value l
    let vr := visit_database_value r
    (vl.1 ++ " <> " ++ vr.1, vl.2 ++ vr.2)
  | .lessThan l r =>
    let vl := visit_database_value l
    let vr := visit_database_value r
    (vl.1 ++ " < " ++ vr.1, vl.2 ++ vr.2)
  | .lessThanOrEquals l r =>
    let vl := visit_database_value l
    let vr := visit_database_value r
    (vl.1 ++ " <= " ++ vr.1, vl.2 ++ vr.2)
  | .greaterThan l r =>
    let vl := visit_database_value l
    let vr := visit_database_value r
    (vl.1 ++ " > " ++ vr.1, vl.2 ++ vr.2)
  | .greaterThanOrEquals l r =>
    let vl := visit_database_value l
    let vr := visit_database_value r
    (vl.1 ++ " >= " ++ vr.1, vl.2 ++ vr.2)
  | .inSelection l r =>
    let vl := visit_database_value l
    let vr := visit_database_value r
    (vl.1 ++ " IN " ++ vr.1, vl.2 ++ vr.2)
  | .notInSelection l r =>
    let vl := visit_database_value l
    let vr := visit_database_value r
    (vl.1 ++ " NOT IN " ++ vr.1, vl.2 ++ vr.2)
  | .like l pattern =>
    let vl := visit_database_value l
    (vl.1 ++ " LIKE ?", vl.2 ++ [.text ("%" ++ pattern ++ "%")])
  | .notLike l pattern =>
    let vl := visit_database_value l
    (vl.1 ++ " NOT LIKE ?", vl.2 ++ [.text ("%" ++ pattern ++ "%")])
  | .beginsWith l pattern =>
    let vl := visit_database_value l
    (vl.1 ++ " LIKE ?", vl.2 ++ [.text (pattern ++ "%")])
  | .notBeginsWith l pattern =>
    let vl := visit_database_value l
    (vl.1 ++ " NOT LIKE ?", vl.2 ++ [.text (pattern ++ "%")])
  | .endsInto l pattern =>
    let vl := visit_database_value l
    (vl.1 ++ " LIKE ?", vl.2 ++ [.text ("%" ++ pattern)])
  | .notEndsInto l pattern =>
    let vl := visit_database_value l
    (vl.1 ++ " NOT LIKE ?", vl.2 ++ [.text ("%" ++ pattern)])
  | .null v =>
    let vv := visit_database_value v
    (vv.1 ++ " IS NULL", vv.2)
  | .notNull v =>
    let vv := visit_database_value v
    (vv.1 ++ " IS NOT NULL", vv.2)
  | .between v l r =>
    let vv := visit_database_value v
    let vl := visit_database_value l
    let vr := visit_database_value r
    (vv.1 ++ " BETWEEN " ++ vl.1 ++ " AND " ++ vr.1, vv.2 ++ vl.2 ++ vr.2)
  | .notBetween v l r =>
    let vv := visit_database_value v
    let vl := visit_database_value l
    let vr := visit_database_value r
    (vv.1 ++ " NOT BETWEEN " ++ vl.1 ++ " AND " ++ vr.1, vv.2 ++ vl.2 ++ vr.2)

mutual
/-- Modelled from the spec: §4.4 `ConditionTree` rendering - explicit
parentheses around every `And`/`Or`/`Not` node, `Single` transparent,
`NoCondition` empty (its enclosing `WHERE` is dropped in
`visit_select`). -/
def visit_conditions : ConditionTree → String × List ParameterizedValue
  | .and l r =>
    let vl := visit_expression l
    let vr := visit_expression r
    ("(" ++ vl.1 ++ " AND " ++ vr.1 ++ ")", vl.2 ++ vr.2)
  | .or l r =>
    let vl := visit_expression l
    let vr := visit_expression r
    ("(" ++ vl.1 ++ " OR " ++ vr.1 ++ ")", vl.2 ++ vr.2)
  | .not e =>
    let ve := visit_expression e
    ("(NOT " ++ ve.1 ++ ")", ve.2)
  | .single e => visit_expression e
  | .noCondition => ("", [])

/-- Modelled from the spec: expression dispatch. -/
def visit_expression : Expression → String × List ParameterizedValue
  | .value v => visit_database_value v
  | .compare c => visit_compare c
  | .conditionTree t => visit_conditions t
end

/-- Modelled from the spec: comma-join of the projection list. -/
def visit_columns : List DatabaseValue → String × List ParameterizedValue
  | [] => ("", [])
  | [v] => visit_database_value v
  | v :: w :: ws =>
    let h := visit_database_value v
    let t := visit_columns (w :: ws)
    (h.1 ++ ", " ++ t.1, h.2 ++ t.2)

/-- Modelled from the spec: the SQLite `LIMIT -1` sentinel stands in when
no limit is given (§4.7). -/
def visit_limit : Option Nat → String
  | some n => "LIMIT " ++ natToDecimal n
  | none => "LIMIT -1"

/-- Modelled from the spec: §4.4 - `NoCondition` causes its enclosing
`WHERE` clause to be omitted entirely. -/
def where_fragment : Option ConditionTree → String × List ParameterizedValue
  | none => ("", [])
  | some .noCondition => ("", [])
  | some t =>
    let vt := visit_conditions t
    (" WHERE " ++ vt.1, vt.2)

/-- Modelled from the spec: §4.5 `Select` assembly - `SELECT <columns>
FROM <table> [WHERE] LIMIT … [OFFSET]`, the projection defaulting to the
asterisk when the columns list is empty, and `FROM` (with everything after
it) dropped when there is no table; pinned by `test_select_star_from`,
`test_select_fields_from` and `test_select_1` in
`src/visitor/sqlite.rs`. -/
def visit_select (s : Select) : String × List ParameterizedValue :=
  let proj :=
    if s.columns.isEmpty then ("*", ([] : List ParameterizedValue))
    else visit_columns s.columns
  match s.table with
  | some t =>
    let w := where_fragment s.conditions
    let offsetStr :=
      match s.offset with
      | some o => " OFFSET " ++ natToDecimal o
      | none => ""
    ("SELECT " ++ proj.1 ++ " FROM " ++ visit_table t ++ w.1 ++ " " ++
        visit_limit s.limit ++ offsetStr,
      proj.2 ++ w.2)
  | none => ("SELECT " ++ proj.1, proj.2)

/-- Modelled from the spec: query dispatch (only `Select` is carried). -/
def visit_query : Query → String × List ParameterizedValue
  | .select s => visit_select s

/-- `Sqlite::build` (`src/visitor/sqlite.rs` lines 20-32): visit the query
with an empty parameter list and return the text with the collected
parameters. -/
def build (q : Query) : String × List ParameterizedValue :=
  visit_query q

end Sqlite

/- ## Placeholder counting

The invariant "the count of placeholders in `sql` equals `len(params)`"
(§8 invariant 1) is measured by counting occurrences of the `C_PARAM`
character.  A raw count only measures placeholders when the identifiers of
the query do not themselves contain a `?` (a quoted identifier is not a
placeholder to the engine), so the invariant carries a well-formedness
predicate on identifiers. -/

/-- The number of occurrences of the SQLite placeholder character in a
piece of SQL text. -/
def phCount (s : String) : Nat := s.data.count '?'

/-- An identifier that does not contain the placeholder character. -/
def identClean (s : String) : Bool := !s.data.contains '?'

/-- All identifiers inside a column are placeholder-free. -/
def Column.clean (c : Column) : Bool := identClean c.name

/-- All identifiers inside a table reference are placeholder-free. -/
def Table.clean (t : Table) : Bool :=
  (match t.database with
   | some db => identClean db
   | none => true) && identClean t.name

mutual
/-- All identifiers inside a value position are placeholder-free. -/
def DatabaseValue.clean : DatabaseValue → Bool
  | .parameterized _ => true
  | .column c => c.clean
  | .row r => r.clean

/-- All identifiers inside a row are placeholder-free. -/
def Row.clean : Row → Bool
  | .nil => true
  | .cons v vs => v.clean && vs.clean
end

/-- All identifiers inside a comparison are placeholder-free (the pattern
strings of the `Like` family are bound, not emitted, so they are not
constrained). -/
def Compare.clean : Compare → Bool
  | .equals l r | .notEquals l r | .lessThan l r | .lessThanOrEquals l r
  | .greaterThan l r | .greaterThanOrEquals l r
  | .inSelection l r | .notInSelection l r => l.clean && r.clean
  | .like l _ | .notLike l _ | .beginsWith l _ | .notBeginsWith l _
  | .endsInto l _ | .notEndsInto l _ => l.clean
  | .null v | .notNull v => v.clean
  | .between v l r | .notBetween v l r => v.clean && l.clean && r.clean

mutual
/-- All identifiers inside a condition tree are placeholder-free. -/
def ConditionTree.clean : ConditionTree → Bool
  | .and l r | .or l r => l.clean && r.clean
  | .not e | .single e => e.clean
  | .noCondition => true

/-- All identifiers inside an expression are placeholder-free. -/
def Expression.clean : Expression → Bool
  | .value v => v.clean
  | .compare c => c.clean
  | .conditionTree t => t.clean
end

/-- All identifiers inside an optional condition are placeholder-free. -/
def cleanConditions : Option ConditionTree → Bool
  | some t => t.clean
  | none => true

/-- All identifiers inside an optional table reference are
placeholder-free. -/
def cleanTableOpt : Option Table → Bool
  | some t => t.clean
  | none => true

/-- All identifiers inside a select are placeholder-free. -/
def Select.clean (s : Select) : Bool :=
  cleanTableOpt s.table &&
  s.columns.all DatabaseValue.clean &&
  cleanConditions s.conditions

/-- All identifiers inside a query are placeholder-free. -/
def Query.clean : Query → Bool
  | .select s => s.clean

/- ## The socket-timeout wrapper (`src/connector/timeout.rs`)

The asynchronous race is embedded by giving the wrapped operation an
already-determined completion time and result: `tokio::time::timeout`
delivers the result when the operation completes within the configured
duration and `Elapsed` otherwise.  Durations are in abstract time units
(the source's `Duration` granularity does not matter to the claims). -/

/-- Modelled from the spec: a driver operation as seen by the timeout
race - the time at which it completes and the result it then delivers. -/
structure Fut (E T : Type) where
  completesAt : Nat
  result : Except E T

/-- The error value of `tokio::time::timeout` when the timer wins. -/
inductive Elapsed where
  | elapsed
  deriving DecidableEq

/-- `tokio::time::timeout` (external library): the operation's result if
it completes within the duration, `Elapsed` if the timer expires first. -/
def tokio_timeout {E T : Type} (duration : Nat) (f : Fut E T) :
    Except Elapsed (Except E T) :=
  if f.completesAt ≤ duration then .ok f.result else .error .elapsed

/-- Modelled from the spec: `impl From<Elapsed> for Error` is not under
`src/`; §5 - "on timer expiry the operation is cancelled and a `Timeout`
error is returned". -/
def Elapsed.into (_ : Elapsed) : Error := Error.build .timeoutKind

/-- `timeout` (`src/connector/timeout.rs` lines 4-20; `Mysql::timeout`,
`src/connector/mysql.rs` lines 45-61, is the same match): with a
configured duration the operation races the timer, otherwise it runs to
completion, and the inner error is converted by the operation's own
`Into<Error>`. -/
def timeout {E T : Type} (into : E → Error) (duration : Option Nat) (f : Fut E T) :
    Except Error T :=
  match duration with
  | some d =>
    match tokio_timeout d f with
    | .ok (.ok result) => .ok result
    | .ok (.error err) => .error (into err)
    | .error e => .error e.into
  | none =>
    match f.result with
    | .ok result => .ok result
    | .error err => .error (into err)

/- ## SQLite parameter conversion (`src/connector/sqlite/conversion.rs`)

`Value` is the connector-layer value model (its definition is not under
`src/`; the variants and payloads are those matched by
`TryFrom<Value> for SqliteValue`, lines 46-101, with every feature gate
enabled).  Payloads that only pass through opaquely are abstracted:
`Real` carries its decimal as a rational (`rust_decimal`'s `to_f64` is
total, so the `expect` on it cannot fire), `Json` carries its
serialization, `Uuid` its hyphenated form, `DateTime` its millisecond
timestamp, `Date` its day number and `Time` its `(hour, minute, second)`
triple. -/

/-- Modelled from the spec: the §3 value model, variant for variant as
matched by `src/connector/sqlite/conversion.rs`. -/
inductive Value where
  | integer (i : Option Int)
  | real (r : Option Rat)
  | text (s : Option String)
  | enum (e : Option String)
  | bytes (b : Option (List Nat))
  | boolean (b : Option Bool)
  | char (c : Option Char)
  | array (xs : List Value)
  | json (j : Option String)
  | uuid (u : Option String)
  | dateTime (millis : Option Int)
  | date (days : Option Int)
  | time (hms : Option (Nat × Nat × Nat))

/-- `SqliteValue` (`src/connector/sqlite/conversion.rs` lines 18-30): the
five storage classes SQLite can bind. -/
inductive SqliteValue where
  | integer (i : Option Int)
  | real (r : Option Rat)
  | text (s : Option String)
  | bytes (b : Option (List Nat))
  | boolean (b : Option Bool)

/-- `TryFrom<Value> for SqliteValue` (`src/connector/sqlite/conversion.rs`
lines 46-101): every variant converts totally except `Array`, which fails
with a conversion error whose message is also preserved verbatim as the
original message. -/
def SqliteValue.try_from : Value → Except Error SqliteValue
  | .integer i => .ok (.integer i)
  | .real r => .ok (.real r)
  | .text s => .ok (.text s)
  | .enum e => .ok (.text e)
  | .bytes b => .ok (.bytes b)
  | .boolean b => .ok (.boolean b)
  | .char c => .ok (.text (c.map fun c => String.singleton c))
  | .array _ =>
    .error { kind := .conversionError "Arrays are not supported in SQLite.",
             originalMessage := some "Arrays are not supported in SQLite." }
  | .json j => .ok (.text j)
  | .uuid u => .ok (.text u)
  | .dateTime millis => .ok (.integer millis)
  | .date days => .ok (.integer (days.map (· * 86400000)))
  | .time hms => .ok (.integer (hms.map fun t => ((t.1 * 60 + t.2.1) * 60 + t.2.2) * 1000))

/- ## PostgreSQL URL options (`src/connector/postgres/config.rs`)

`PostgresUrl::new` runs `parse_query_params` over the URL's query pairs
(the URL syntax itself is parsed by the external `url` crate, so the model
takes the decoded `query_pairs()` list directly). -/

/-- Rust `str::parse::<bool>`: accepts exactly `true` and `false`. -/
def parse_bool (s : String) : Option Bool :=
  if s = "true" then some true
  else if s = "false" then some false
  else none

/-- Rust `str::parse` for the 64-bit unsigned integer types used by the
options (`usize`/`u64`): an optional leading `+`, then one or more ASCII
digits, rejecting overflow. -/
def parse_unsigned (s : String) : Option Nat :=
  let digits := match s.data with
    | '+' :: rest => rest
    | l => l
  if digits.isEmpty then none
  else if digits.all Char.isDigit then
    let n := digits.foldl (fun acc c => acc * 10 + (c.toNat - 48)) 0
    if n < 2 ^ 64 then some n else none
  else none

/-- `SslMode` (external `tokio_postgres` type; the three accepted
spellings). -/
inductive SslMode where
  | disable
  | prefer
  | require
  deriving DecidableEq

/-- `SslAcceptMode` (`src/connector/postgres/config.rs` lines 24-28). -/
inductive SslAcceptMode where
  | strict
  | acceptInvalidCerts
  deriving DecidableEq

/-- `SslParams` (`src/connector/postgres/config.rs` lines 30-36). -/
structure SslParams where
  certificate_file : Option String
  identity_file : Option String
  identity_password : Option String
  ssl_accept_mode : SslAcceptMode
  deriving DecidableEq

/-- `PostgresUrlQueryParams` (`src/connector/postgres/config.rs` lines
353-364); durations are carried as their whole-second counts. -/
structure PostgresUrlQueryParams where
  ssl_params : SslParams
  connection_limit : Option Nat
  schema : String
  ssl_mode : SslMode
  pg_bouncer : Bool
  host : Option String
  socket_timeout : Option Nat
  connect_timeout : Option Nat
  statement_cache_size : Nat
  deriving DecidableEq

/-- The initial values of the mutable locals of `parse_query_params`
(`src/connector/postgres/config.rs` lines 206-217). -/
def initialQueryParams : PostgresUrlQueryParams :=
  { ssl_params :=
      { certificate_file := none, identity_file := none,
        identity_password := none, ssl_accept_mode := .acceptInvalidCerts },
    connection_limit := none,
    schema := "public",
    ssl_mode := .prefer,
    pg_bouncer := false,
    host := none,
    socket_timeout := none,
    connect_timeout := none,
    statement_cache_size := 500 }

/-- The loop body of `PostgresUrl::parse_query_params`
(`src/connector/postgres/config.rs` lines 219-305), one query pair at a
time, threading the mutable locals: the five typed options fail with
`InvalidConnectionArguments` when their value does not parse,
`sslmode`/`sslaccept` fall back on unknown values, and an unrecognized key
is discarded with a log line. -/
def parse_query_params_go :
    List (String × String) → PostgresUrlQueryParams →
      Except Error PostgresUrlQueryParams
  | [], st => .ok st
  | (k, v) :: rest, st =>
    if k = "pgbouncer" then
      match parse_bool v with
      | none => .error (Error.build .invalidConnectionArguments)
      | some b => parse_query_params_go rest { st with pg_bouncer := b }
    else if k = "sslmode" then
      parse_query_params_go rest
        { st with ssl_mode :=
            if v = "disable" then .disable
            else if v = "prefer" then .prefer
            else if v = "require" then .require
            else st.ssl_mode }
    else if k = "sslcert" then
      parse_query_params_go rest
        { st with ssl_params := { st.ssl_params with certificate_file := some v } }
    else if k = "sslidentity" then
      parse_query_params_go rest
        { st with ssl_params := { st.ssl_params with identity_file := some v } }
    else if k = "sslpassword" then
      parse_query_params_go rest
        { st with ssl_params := { st.ssl_params with identity_password := some v } }
    else if k = "statement_cache_size" then
      match parse_unsigned v with
      | none => .error (Error.build .invalidConnectionArguments)
      | some n => parse_query_params_go rest { st with statement_cache_size := n }
    else if k = "sslaccept" then
      parse_query_params_go rest
        { st with ssl_params :=
            { st.ssl_params with ssl_accept_mode :=
                if v = "accept_invalid_certs" then .acceptInvalidCerts
                else .strict } }
    else if k = "schema" then
      parse_query_params_go rest { st with schema := v }
    else if k = "connection_limit" then
      match parse_unsigned v with
      | none => .error (Error.build .invalidConnectionArguments)
      | some n => parse_query_params_go rest { st with connection_limit := some n }
    else if k = "host" then
      parse_query_params_go rest { st with host := some v }
    else if k = "socket_timeout" then
      match parse_unsigned v with
      | none => .error (Error.build .invalidConnectionArguments)
      | some n => parse_query_params_go rest { st with socket_timeout := some n }
    else if k = "connect_timeout" then
      match parse_unsigned v with
      | none => .error (Error.build .invalidConnectionArguments)
      | some n => parse_query_params_go rest { st with connect_timeout := some n }
    else
      parse_query_params_go rest st

/-- `PostgresUrl::parse_query_params` over the URL's query pairs. -/
def parse_query_params (pairs : List (String × String)) :
    Except Error PostgresUrlQueryParams :=
  parse_query_params_go pairs initialQueryParams

/-- `PostgresUrl` (`src/connector/postgres/config.rs` lines 106-110),
keeping the query pairs in place of the raw `Url`. -/
structure PostgresUrl where
  pairs : List (String × String)
  query_params : PostgresUrlQueryParams

/-- `PostgresUrl::new` (`src/connector/postgres/config.rs` lines 115-119):
parse the query parameters, propagating their error. -/
def PostgresUrl.new (pairs : List (String × String)) : Except Error PostgresUrl :=
  match parse_query_params pairs with
  | .error e => .error e
  | .ok qp => .ok { pairs := pairs, query_params := qp }

/-- Whether one query pair survives `parse_query_params`: `false` exactly
when the key is one of the five typed options and the value fails its
parse; every other pair - including every unrecognized key - is `true`. -/
def pair_ok : String × String → Bool
  | (k, v) =>
    if k = "pgbouncer" then (parse_bool v).isSome
    else if k = "statement_cache_size" then (parse_unsigned v).isSome
    else if k = "connection_limit" then (parse_unsigned v).isSome
    else if k = "socket_timeout" then (parse_unsigned v).isSome
    else if k = "connect_timeout" then (parse_unsigned v).isSome
    else true

/-- Whether a fallible computation succeeded. -/
def exceptIsOk {ε α : Type} : Except ε α → Bool
  | .ok _ => true
  | .error _ => false

/- ## Placeholder counts of the fixed emitted fragments -/

@[simp] theorem phCount_append (a b : String) :
    phCount (a ++ b) = phCount a + phCount b := by
  simp [phCount, String.data_append]

@[simp] theorem phCount_qmark : phCount "?" = 1 := by decide

@[simp] theorem phCount_backtick : phCount "`" = 0 := by decide

@[simp] theorem phCount_lparen : phCount "(" = 0 := by decide

@[simp] theorem phCount_rparen : phCount ")" = 0 := by decide

@[simp] theorem phCount_comma : phCount ", " = 0 := by decide

@[simp] theorem phCount_eq_frag : phCount " = " = 0 := by decide

@[simp] theorem phCount_neq_frag : phCount " <> " = 0 := by decide

@[simp] theorem phCount_lt_frag : phCount " < " = 0 := by decide

@[simp] theorem phCount_le_frag : phCount " <= " = 0 := by decide

@[simp] theorem phCount_gt_frag : phCount " > " = 0 := by decide

@[simp] theorem phCount_ge_frag : phCount " >= " = 0 := by decide

@[simp] theorem phCount_in_frag : phCount " IN " = 0 := by decide

@[simp] theorem phCount_not_in_frag : phCount " NOT IN " = 0 := by decide

@[simp] theorem phCount_like_frag : phCount " LIKE ?" = 1 := by decide

@[simp] theorem phCount_not_like_frag : phCount " NOT LIKE ?" = 1 := by decide

@[simp] theorem phCount_is_null_frag : phCount " IS NULL" = 0 := by decide

@[simp] theorem phCount_is_not_null_frag : phCount " IS NOT NULL" = 0 := by decide

@[simp] theorem phCount_between_frag : phCount " BETWEEN " = 0 := by decide

@[simp] theorem phCount_not_between_frag : phCount " NOT BETWEEN " = 0 := by decide

@[simp] theorem phCount_and_frag : phCount " AND " = 0 := by decide

@[simp] theorem phCount_or_frag : phCount " OR " = 0 := by decide

@[simp] theorem phCount_not_open_frag : phCount "(NOT " = 0 := by decide

@[simp] theorem phCount_dot : phCount "." = 0 := by decide

@[simp] theorem phCount_select_frag : phCount "SELECT " = 0 := by decide

@[simp] theorem phCount_from_frag : phCount " FROM " = 0 := by decide

@[simp] theorem phCount_where_frag : phCount " WHERE " = 0 := by decide

@[simp] theorem phCount_star : phCount "*" = 0 := by decide

@[simp] theorem phCount_empty : phCount "" = 0 := by decide

@[simp] theorem phCount_space : phCount " " = 0 := by decide

@[simp] theorem phCount_limit_m1 : phCount "LIMIT -1" = 0 := by decide

@[simp] theorem phCount_limit_sp : phCount "LIMIT " = 0 := by decide

@[simp] theorem phCount_offset_frag : phCount " OFFSET " = 0 := by decide

@[simp] theorem phCount_zero_str : phCount "0" = 0 := by decide

@[simp] theorem phCount_select_star : phCount "SELECT *" = 0 := by decide

@[simp] theorem phCount_select_star_from : phCount "SELECT * FROM " = 0 := by decide

/-- A placeholder-free identifier contributes no placeholder count. -/
theorem phCount_eq_zero_of_identClean (s : String) (h : identClean s = true) :
    phCount s = 0 := by
  refine List.count_eq_zero.mpr fun hmem => ?h
  have hc : s.data.contains '?' = false := by simpa [identClean] using h
  exact absurd hmem (by simpa using hc)

/-- Quoting a placeholder-free identifier contributes no placeholder
count. -/
theorem phCount_delimited (s : String) (h : identClean s = true) :
    phCount (Sqlite.delimited_identifier s) = 0 := by
  simp [Sqlite.delimited_identifier, phCount_eq_zero_of_identClean s h]

/-- Decimal digit strings contain no placeholder character. -/
theorem natToDecimalAux_count :
    ∀ (fuel n : Nat) (acc : List Char), acc.count '?' = 0 →
      (Sqlite.natToDecimalAux fuel n acc).count '?' = 0
  | 0, _, _, h => h
  | fuel + 1, n, acc, h => by
    rw [Sqlite.natToDecimalAux]
    by_cases hn : n = 0
    · simpa [hn] using h
    · simp only [if_neg hn]
      refine natToDecimalAux_count fuel (n / 10) _ ?h
      have h10 : n % 10 < 10 := Nat.mod_lt _ (by decide)
      rw [List.count_cons]
      have hne : (Char.ofNat (48 + n % 10) == '?') = false := by
        set k := n % 10 with hk
        interval_cases k <;> decide
      simp [hne, h]

/-- The rendered limit/offset number contains no placeholder character. -/
theorem phCount_natToDecimal (n : Nat) : phCount (Sqlite.natToDecimal n) = 0 := by
  rw [Sqlite.natToDecimal]
  by_cases h : n = 0
  · simp [h]
  · simp only [if_neg h]
    exact natToDecimalAux_count n n [] rfl

/-- The rendered `LIMIT` clause contains no placeholder character. -/
theorem phCount_visit_limit (l : Option Nat) :
    phCount (Sqlite.visit_limit l) = 0 := by
  cases l with
  | none => simp [Sqlite.visit_limit]
  | some n => simp [Sqlite.visit_limit, phCount_natToDecimal]

/-- The rendered table reference of a clean table contains no placeholder
character. -/
theorem phCount_visit_table (t : Table) (h : t.clean = true) :
    phCount (Sqlite.visit_table t) = 0 := by
  obtain ⟨db, name⟩ := t
  cases db with
  | none =>
    have hname : identClean name = true := by simpa [Table.clean] using h
    simp [Sqlite.visit_table, phCount_delimited name hname]
  | some d =>
    obtain ⟨hd, hname⟩ : identClean d = true ∧ identClean name = true := by
      simpa [Table.clean, Bool.and_eq_true] using h
    simp [Sqlite.visit_table, phCount_delimited name hname, phCount_delimited d hd]

/- ## The binding discipline, visit function by visit function -/

mutual
/-- Placeholders emitted for a value position equal the parameters it
appends. -/
theorem clean_visit_database_value :
    ∀ v : DatabaseValue, v.clean = true →
      phCount (Sqlite.visit_database_value v).1 =
        (Sqlite.visit_database_value v).2.length
  | .parameterized p, _ => by
    simp [Sqlite.visit_database_value]
  | .column c, h => by
    have hc : identClean c.name = true := by
      simpa [DatabaseValue.clean, Column.clean] using h
    simp [Sqlite.visit_database_value, phCount_delimited c.name hc]
  | .row r, h => by
    have hr := clean_visit_row_items r (by simpa [DatabaseValue.clean] using h)
    simp [Sqlite.visit_database_value, hr]

/-- Placeholders emitted for a row equal the parameters it appends. -/
theorem clean_visit_row_items :
    ∀ r : Row, r.clean = true →
      phCount (Sqlite.visit_row_items r).1 = (Sqlite.visit_row_items r).2.length
  | .nil, _ => by simp [Sqlite.visit_row_items]
  | .cons v .nil, h => by
    have hv := clean_visit_database_value v (by simpa [Row.clean] using h)
    simpa [Sqlite.visit_row_items] using hv
  | .cons v (.cons w ws), h => by
    obtain ⟨h1, h2⟩ : v.clean = true ∧ (Row.cons w ws).clean = true := by
      simpa [Row.clean, Bool.and_eq_true] using h
    have hv := clean_visit_database_value v h1
    have ht := clean_visit_row_items (.cons w ws) h2
    simp [Sqlite.visit_row_items, hv, ht]
end

/-- Placeholders emitted for a comparison equal the parameters it
appends. -/
theorem clean_visit_compare :
    ∀ c : Compare, c.clean = true →
      phCount (Sqlite.visit_compare c).1 = (Sqlite.visit_compare c).2.length
  | .equals l r, h | .notEquals l r, h | .lessThan l r, h
  | .lessThanOrEquals l r, h | .greaterThan l r, h
  | .greaterThanOrEquals l r, h | .inSelection l r, h
  | .notInSelection l r, h => by
    obtain ⟨h1, h2⟩ : l.clean = true ∧ r.clean = true := by
      simpa [Compare.clean, Bool.and_eq_true] using h
    simp [Sqlite.visit_compare, clean_visit_database_value l h1,
      clean_visit_database_value r h2]
  | .like l p, h | .notLike l p, h | .beginsWith l p, h
  | .notBeginsWith l p, h | .endsInto l p, h | .notEndsInto l p, h => by
    have h1 : l.clean = true := by simpa [Compare.clean] using h
    simp [Sqlite.visit_compare, clean_visit_database_value l h1]
  | .null v, h | .notNull v, h => by
    have h1 : v.clean = true := by simpa [Compare.clean] using h
    simp [Sqlite.visit_compare, clean_visit_database_value v h1]
  | .between v l r, h | .notBetween v l r, h => by
    obtain ⟨⟨h1, h2⟩, h3⟩ :
        (v.clean = true ∧ l.clean = true) ∧ r.clean = true := by
      simpa [Compare.clean, Bool.and_eq_true] using h
    simp [Sqlite.visit_compare, clean_visit_database_value v h1,
      clean_visit_database_value l h2, clean_visit_database_value r h3]
    omega

mutual
/-- Placeholders emitted for a condition tree equal the parameters it
appends. -/
theorem clean_visit_conditions :
    ∀ t : ConditionTree, t.clean = true →
      phCount (Sqlite.visit_conditions t).1 = (Sqlite.visit_conditions t).2.length
  | .and l r, h | .or l r, h => by
    obtain ⟨h1, h2⟩ : l.clean = true ∧ r.clean = true := by
      simpa [ConditionTree.clean, Bool.and_eq_true] using h
    simp [Sqlite.visit_conditions, clean_visit_expression l h1,
      clean_visit_expression r h2]
  | .not e, h => by
    have h1 : e.clean = true := by simpa [ConditionTree.clean] using h
    simp [Sqlite.visit_conditions, clean_visit_expression e h1]
  | .single e, h => by
    have h1 : e.clean = true := by simpa [ConditionTree.clean] using h
    simpa [Sqlite.visit_conditions] using clean_visit_expression e h1
  | .noCondition, _ => by simp [Sqlite.visit_conditions]

/-- Placeholders emitted for an expression equal the parameters it
appends. -/
theorem clean_visit_expression :
    ∀ e : Expression, e.clean = true →
      phCount (Sqlite.visit_expression e).1 = (Sqlite.visit_expression e).2.length
  | .value v, h => by
    simpa [Sqlite.visit_expression] using
      clean_visit_database_value v (by simpa [Expression.clean] using h)
  | .compare c, h => by
    simpa [Sqlite.visit_expression] using
      clean_visit_compare c (by simpa [Expression.clean] using h)
  | .conditionTree t, h => by
    simpa [Sqlite.visit_expression] using
      clean_visit_conditions t (by simpa [Expression.clean] using h)
end

/-- Placeholders emitted for a projection list equal the parameters it
appends. -/
theorem clean_visit_columns :
    ∀ l : List DatabaseValue, l.all DatabaseValue.clean = true →
      phCount (Sqlite.visit_columns l).1 = (Sqlite.visit_columns l).2.length
  | [], _ => by simp [Sqlite.visit_columns]
  | [v], h => by
    have hv := clean_visit_database_value v (by simpa using h)
    simpa [Sqlite.visit_columns] using hv
  | v :: w :: ws, h => by
    obtain ⟨h1, h2⟩ :
        DatabaseValue.clean v = true ∧ (w :: ws).all DatabaseValue.clean = true := by
      simpa [Bool.and_eq_true] using h
    have hv := clean_visit_database_value v h1
    have ht := clean_visit_columns (w :: ws) h2
    simp [Sqlite.visit_columns, hv, ht]

/-- Placeholders emitted for the `WHERE` fragment equal the parameters it
appends. -/
theorem clean_where_fragment :
    ∀ o : Option ConditionTree, cleanConditions o = true →
      phCount (Sqlite.where_fragment o).1 = (Sqlite.where_fragment o).2.length
  | none, _ => by simp [Sqlite.where_fragment]
  | some .noCondition, _ => by simp [Sqlite.where_fragment]
  | some (.and l r), h => by
    have hc := clean_visit_conditions (.and l r) (by simpa [cleanConditions] using h)
    simp [Sqlite.where_fragment, hc]
  | some (.or l r), h => by
    have hc := clean_visit_conditions (.or l r) (by simpa [cleanConditions] using h)
    simp [Sqlite.where_fragment, hc]
  | some (.not e), h => by
    have hc := clean_visit_conditions (.not e) (by simpa [cleanConditions] using h)
    simp [Sqlite.where_fragment, hc]
  | some (.single e), h => by
    have hc := clean_visit_conditions (.single e) (by simpa [cleanConditions] using h)
    simp [Sqlite.where_fragment, hc]

/-- Placeholders emitted for a whole select equal the parameters it
appends. -/
theorem clean_visit_select (s : Select) (h : s.clean = true) :
    phCount (Sqlite.visit_select s).1 = (Sqlite.visit_select s).2.length := by
  obtain ⟨tab, cols, conds, lim, off⟩ := s
  obtain ⟨⟨htab, hcols⟩, hconds⟩ :
      (cleanTableOpt tab = true ∧ cols.all DatabaseValue.clean = true) ∧
        cleanConditions conds = true := by
    simpa [Select.clean, Bool.and_eq_true] using h
  have hwf := clean_where_fragment conds hconds
  have hcl := clean_visit_columns cols hcols
  cases tab with
  | none =>
    by_cases hc : cols.isEmpty
    · simp [Sqlite.visit_select, hc]
    · simp [Sqlite.visit_select, hc, hcl]
  | some t =>
    have htc : Table.clean t = true := by simpa [cleanTableOpt] using htab
    cases off with
    | none =>
      by_cases hc : cols.isEmpty
      · simp [Sqlite.visit_select, hc, hwf, phCount_visit_table t htc,
          phCount_visit_limit]
      · simp [Sqlite.visit_select, hc, hcl, hwf, phCount_visit_table t htc,
          phCount_visit_limit]
    | some o =>
      by_cases hc : cols.isEmpty
      · simp [Sqlite.visit_select, hc, hwf, phCount_visit_table t htc,
          phCount_visit_limit, phCount_natToDecimal]
      · simp [Sqlite.visit_select, hc, hcl, hwf, phCount_visit_table t htc,
          phCount_visit_limit, phCount_natToDecimal]

/-- C1: for every query whose identifiers are free of the placeholder
character `?` (a `?` inside a quoted identifier is text, not a
placeholder, so such identifiers are excluded from the count), building it
with the SQLite visitor produces a pair `(sql, params)` in which the
number of `?` occurrences in `sql` equals the length of `params`: every
bound value is appended to the parameter list exactly when its placeholder
is emitted. -/
theorem sqlite_build_placeholder_count (q : Query) (h : q.clean = true) :
    phCount (Sqlite.build q).1 = (Sqlite.build q).2.length := by
  obtain ⟨s⟩ := q
  simpa [Sqlite.build, Sqlite.visit_query] using
    clean_visit_select s (by simpa [Query.clean] using h)

/-- A concrete query exercising rows, patterns, `BETWEEN`, `IS NULL`,
limit and offset, for the placeholder-count witness. -/
def c1Query : Query :=
  .select
    { table := some ⟨some "cat", "musti"⟩,
      columns := [.column ⟨"paw"⟩, .parameterized (.integer 1)],
      conditions := some
        ((Comparable.like "word" "me%ow").and
          (.conditionTree
            (((Comparable.in_selection "age"
                (.row (.cons (dbInt 1) (.cons (dbInt 2) .nil)))).or
              (.compare (Comparable.between "paw" (dbInt 0) (dbInt 9)))).negate))),
      limit := some 12,
      offset := some 3 }

theorem sqlite_build_placeholder_count_witness :
    Query.clean c1Query = true ∧
      phCount (Sqlite.build c1Query).1 = (Sqlite.build c1Query).2.length :=
  ⟨by decide, sqlite_build_placeholder_count c1Query (by decide)⟩

/-- C2: the builder's grouping is preserved in the rendered text.  The
left-branching chain `"word".equals("meow").and("age".less_than(10))
.and("paw".equals("warm"))` on table `naukio` renders with the
parentheses around the left pair and parameters in left-to-right visit
order, and the right-branching variant
`"word".equals("meow").and("age".less_than(10).and("paw".equals("warm")))`
renders with the parentheses around the right pair instead
(`test_select_and` and `test_select_and_different_execution_order`). -/
theorem sqlite_condition_tree_grouping :
    Sqlite.build (.select ((Select.fromTable ⟨none, "naukio"⟩).so_that
        (((Comparable.equals "word" (dbText "meow")).and
            (.compare (Comparable.less_than "age" (dbInt 10)))).andThen
          (.compare (Comparable.equals "paw" (dbText "warm")))))) =
      ("SELECT * FROM `naukio` WHERE ((`word` = ? AND `age` < ?) AND `paw` = ?) LIMIT -1",
        [.text "meow", .integer 10, .text "warm"]) ∧
    Sqlite.build (.select ((Select.fromTable ⟨none, "naukio"⟩).so_that
        ((Comparable.equals "word" (dbText "meow")).and
          (.conditionTree ((Comparable.less_than "age" (dbInt 10)).and
            (.compare (Comparable.equals "paw" (dbText "warm")))))))) =
      ("SELECT * FROM `naukio` WHERE (`word` = ? AND (`age` < ? AND `paw` = ?)) LIMIT -1",
        [.text "meow", .integer 10, .text "warm"]) := by
  decide

/-- C3: for the `Like`, `BeginsWith` and `EndsInto` comparisons (and
their negations, rendered with `NOT LIKE`) the user pattern string is
bound as a single parameter bracketed with `%` on the appropriate sides -
`%pattern%`, `pattern%`, `%pattern` - and since the bound value is the
verbatim bracketing of the arbitrary pattern string, `%` and `_`
characters inside it are not escaped. -/
theorem sqlite_pattern_binding (tbl col pat : String) :
    Sqlite.build (.select ((Select.fromTable ⟨none, tbl⟩).so_that
        (Compare.intoConditionTree (Comparable.like col pat)))) =
      ("SELECT * FROM " ++ Sqlite.delimited_identifier tbl ++ " WHERE " ++
          Sqlite.delimited_identifier col ++ " LIKE ? LIMIT -1",
        [.text ("%" ++ pat ++ "%")]) ∧
    Sqlite.build (.select ((Select.fromTable ⟨none, tbl⟩).so_that
        (Compare.intoConditionTree (Comparable.not_like col pat)))) =
      ("SELECT * FROM " ++ Sqlite.delimited_identifier tbl ++ " WHERE " ++
          Sqlite.delimited_identifier col ++ " NOT LIKE ? LIMIT -1",
        [.text ("%" ++ pat ++ "%")]) ∧
    Sqlite.build (.select ((Select.fromTable ⟨none, tbl⟩).so_that
        (Compare.intoConditionTree (Comparable.begins_with col pat)))) =
      ("SELECT * FROM " ++ Sqlite.delimited_identifier tbl ++ " WHERE " ++
          Sqlite.delimited_identifier col ++ " LIKE ? LIMIT -1",
        [.text (pat ++ "%")]) ∧
    Sqlite.build (.select ((Select.fromTable ⟨none, tbl⟩).so_that
        (Compare.intoConditionTree (Comparable.not_begins_with col pat)))) =
      ("SELECT * FROM " ++ Sqlite.delimited_identifier tbl ++ " WHERE " ++
          Sqlite.delimited_identifier col ++ " NOT LIKE ? LIMIT -1",
        [.text (pat ++ "%")]) ∧
    Sqlite.build (.select ((Select.fromTable ⟨none, tbl⟩).so_that
        (Compare.intoConditionTree (Comparable.ends_into col pat)))) =
      ("SELECT * FROM " ++ Sqlite.delimited_identifier tbl ++ " WHERE " ++
          Sqlite.delimited_identifier col ++ " LIKE ? LIMIT -1",
        [.text ("%" ++ pat)]) ∧
    Sqlite.build (.select ((Select.fromTable ⟨none, tbl⟩).so_that
        (Compare.intoConditionTree (Comparable.not_ends_into col pat)))) =
      ("SELECT * FROM " ++ Sqlite.delimited_identifier tbl ++ " WHERE " ++
          Sqlite.delimited_identifier col ++ " NOT LIKE ? LIMIT -1",
        [.text ("%" ++ pat)]) := by
  refine ⟨?a, ?b, ?c, ?d, ?e, ?f⟩ <;>
    simp [Sqlite.build, Sqlite.visit_query, Sqlite.visit_select,
      Sqlite.where_fragment, Sqlite.visit_conditions, Sqlite.visit_expression,
      Sqlite.visit_compare, Sqlite.visit_database_value, Sqlite.visit_limit,
      Sqlite.visit_table, Select.fromTable,
      Select.so_that, Compare.intoConditionTree, Comparable.like,
      Comparable.not_like, Comparable.begins_with, Comparable.not_begins_with,
      Comparable.ends_into, Comparable.not_ends_into, String.append_assoc]

/-- C4: `Select::from("musti")` builds to exactly
``SELECT * FROM `musti` LIMIT -1`` with an empty parameter list
(`test_select_star_from`). -/
theorem sqlite_select_star_from :
    Sqlite.build (.select (Select.fromTable ⟨none, "musti"⟩)) =
      ("SELECT * FROM `musti` LIMIT -1", []) := by
  decide

/-- C5 counterexample: at `Select::from("musti")` - a select with a
primary table and no columns - the emitted projection is not the
qualified asterisk of the primary table: the built SQL is not
``SELECT `musti`.* FROM `musti` LIMIT -1`` (it is
``SELECT * FROM `musti` LIMIT -1``, per `test_select_star_from`). -/
theorem sqlite_select_star_not_qualified :
    (Sqlite.build (.select (Select.fromTable ⟨none, "musti"⟩))).1 ≠
      "SELECT `musti`.* FROM `musti` LIMIT -1" := by
  decide

/-- C5 (amended): when a `Select` names a primary table but lists no
columns, the emitted projection is the bare, unqualified asterisk: the
built SQL starts with `SELECT * FROM`. -/
theorem sqlite_select_star_projection (s : Select) (t : Table)
    (h1 : s.table = some t) (h2 : s.columns = []) :
    ∃ rest, (Sqlite.build (.select s)).1 = "SELECT * FROM " ++ rest := by
  obtain ⟨tab, cols, conds, lim, off⟩ := s
  simp only at h1 h2
  subst h1
  subst h2
  refine ⟨Sqlite.visit_table t ++ ((Sqlite.where_fragment conds).1 ++ (" " ++
      (Sqlite.visit_limit lim ++
        (match off with
         | some o => " OFFSET " ++ Sqlite.natToDecimal o
         | none => "")))), ?e⟩
  simp [Sqlite.build, Sqlite.visit_query, Sqlite.visit_select, String.append_assoc]

theorem sqlite_select_star_projection_witness :
    ∃ rest, (Sqlite.build (.select (Select.fromTable ⟨none, "musti"⟩))).1 =
      "SELECT * FROM " ++ rest :=
  sqlite_select_star_projection (Select.fromTable ⟨none, "musti"⟩)
    ⟨none, "musti"⟩ rfl rfl

/-- C6: the three conditions of scenario 4 built with `.or`, chained with
`.and` and negated with `.not()` render as `(NOT (inner))`: exactly
``SELECT * FROM `naukio` WHERE (NOT ((`word` = ? OR `age` < ?) AND `paw` = ?)) LIMIT -1``
with the three parameters in visit order (`test_select_negation`). -/
theorem sqlite_negation_rendering :
    Sqlite.build (.select ((Select.fromTable ⟨none, "naukio"⟩).so_that
        ((((Comparable.equals "word" (dbText "meow")).or
            (.compare (Comparable.less_than "age" (dbInt 10)))).andThen
          (.compare (Comparable.equals "paw" (dbText "warm")))).negate))) =
      ("SELECT * FROM `naukio` WHERE (NOT ((`word` = ? OR `age` < ?) AND `paw` = ?)) LIMIT -1",
        [.text "meow", .integer 10, .text "warm"]) := by
  decide

/-- C7: `IS NULL` / `IS NOT NULL` never bind a parameter: the full build
of a select filtered by `is_null`/`is_not_null` has an empty parameter
list and renders the operand inline as ``<col> IS NULL`` /
``<col> IS NOT NULL``; and for any operand whatsoever, the comparison
appends exactly the parameters of its operand and nothing more. -/
theorem sqlite_is_null_binds_nothing (tbl col : String) (v : DatabaseValue) :
    Sqlite.build (.select ((Select.fromTable ⟨none, tbl⟩).so_that
        (Compare.intoConditionTree (Comparable.is_null col)))) =
      ("SELECT * FROM " ++ Sqlite.delimited_identifier tbl ++ " WHERE " ++
          Sqlite.delimited_identifier col ++ " IS NULL LIMIT -1", []) ∧
    Sqlite.build (.select ((Select.fromTable ⟨none, tbl⟩).so_that
        (Compare.intoConditionTree (Comparable.is_not_null col)))) =
      ("SELECT * FROM " ++ Sqlite.delimited_identifier tbl ++ " WHERE " ++
          Sqlite.delimited_identifier col ++ " IS NOT NULL LIMIT -1", []) ∧
    (Sqlite.visit_compare (.null v)).2 = (Sqlite.visit_database_value v).2 ∧
    (Sqlite.visit_compare (.notNull v)).2 = (Sqlite.visit_database_value v).2 := by
  refine ⟨?a, ?b, ?c, ?d⟩ <;>
    simp [Sqlite.build, Sqlite.visit_query, Sqlite.visit_select,
      Sqlite.where_fragment, Sqlite.visit_conditions, Sqlite.visit_expression,
      Sqlite.visit_compare, Sqlite.visit_database_value, Sqlite.visit_limit,
      Sqlite.visit_table, Select.fromTable,
      Select.so_that, Compare.intoConditionTree, Comparable.is_null,
      Comparable.is_not_null, String.append_assoc]

/-- C8: the timeout wrapper around every driver operation: with a
configured duration the operation races a timer - an in-time completion
returns the operation's own result (errors converted by its own
`Into<Error>`), timer expiry returns a `Timeout` error; with no duration
the operation runs to completion and, as long as the operation's own
error conversion never produces a `Timeout`, the wrapper never does
either. -/
theorem timeout_wrapper_behavior {E T : Type} (into : E → Error) (f : Fut E T) :
    (∀ d : Nat, f.completesAt ≤ d →
        timeout into (some d) f = f.result.mapError into) ∧
    (∀ d : Nat, d < f.completesAt →
        timeout into (some d) f = .error (Error.build .timeoutKind)) ∧
    timeout into none f = f.result.mapError into ∧
    ((∀ e : E, (into e).kind ≠ .timeoutKind) →
      ∀ err : Error, timeout into none f = .error err →
        err.kind ≠ .timeoutKind) := by
  refine ⟨fun d hd => ?a, fun d hd => ?b, ?c, fun hinto err herr => ?d⟩
  · cases hr : f.result <;>
      simp [timeout, tokio_timeout, hd, hr, Except.mapError]
  · have hnd : ¬ f.completesAt ≤ d := by omega
    simp [timeout, tokio_timeout, hnd, Elapsed.into]
  · cases hr : f.result <;> simp [timeout, hr, Except.mapError]
  · cases hr : f.result with
    | ok r => simp [timeout, hr] at herr
    | error e =>
      simp only [timeout, hr] at herr
      cases herr
      exact hinto e

theorem timeout_wrapper_behavior_witness :
    timeout (fun _ : Unit => Error.build (.conversionError "boom")) (some 3)
        ({ completesAt := 5, result := .ok 42 } : Fut Unit Nat) =
      .error (Error.build .timeoutKind) ∧
    timeout (fun _ : Unit => Error.build (.conversionError "boom")) (some 7)
        ({ completesAt := 5, result := .ok 42 } : Fut Unit Nat) = .ok 42 ∧
    timeout (fun _ : Unit => Error.build (.conversionError "boom")) none
        ({ completesAt := 5, result := .ok 42 } : Fut Unit Nat) = .ok 42 :=
  ⟨(timeout_wrapper_behavior (fun _ => Error.build (.conversionError "boom"))
      { completesAt := 5, result := .ok 42 }).2.1 3 (by decide),
   by
    have := (timeout_wrapper_behavior (fun _ => Error.build (.conversionError "boom"))
      ({ completesAt := 5, result := .ok 42 } : Fut Unit Nat)).1 7 (by decide)
    simpa [Except.mapError] using this,
   by
    have := (timeout_wrapper_behavior (fun _ => Error.build (.conversionError "boom"))
      ({ completesAt := 5, result := .ok 42 } : Fut Unit Nat)).2.2.1
    simpa [Except.mapError] using this⟩

/-- C9: binding a `Value::Array` through the SQLite connector fails
cleanly with the conversion error "Arrays are not supported in SQLite."
(also preserved verbatim as the original message), while every other
`Value` variant converts to a `SqliteValue` successfully; the conversion
is a total function, so no input panics. -/
theorem sqlite_array_conversion_fails :
    (∀ xs : List Value, SqliteValue.try_from (.array xs) =
        .error { kind := .conversionError "Arrays are not supported in SQLite.",
                 originalMessage := some "Arrays are not supported in SQLite." }) ∧
    (∀ v : Value, (∀ xs : List Value, v ≠ .array xs) →
        ∃ w, SqliteValue.try_from v = .ok w) := by
  refine ⟨fun _ => rfl, fun v hv => ?b⟩
  cases v with
  | array xs => exact absurd rfl (hv xs)
  | integer i => exact ⟨_, rfl⟩
  | real r => exact ⟨_, rfl⟩
  | text s => exact ⟨_, rfl⟩
  | enum e => exact ⟨_, rfl⟩
  | bytes b => exact ⟨_, rfl⟩
  | boolean b => exact ⟨_, rfl⟩
  | char c => exact ⟨_, rfl⟩
  | json j => exact ⟨_, rfl⟩
  | uuid u => exact ⟨_, rfl⟩
  | dateTime m => exact ⟨_, rfl⟩
  | date d => exact ⟨_, rfl⟩
  | time t => exact ⟨_, rfl⟩

theorem sqlite_array_conversion_fails_witness :
    ∃ w, SqliteValue.try_from (.text (some "meow")) = .ok w :=
  sqlite_array_conversion_fails.2 (.text (some "meow"))
    (fun _ h => Value.noConfusion h)

/- ## Success and failure of the option-parsing loop -/

/-- The loop succeeds exactly when every pair parses
(`pair_ok`-wise), whatever the threaded state. -/
theorem parse_query_params_go_isOk :
    ∀ (pairs : List (String × String)) (st : PostgresUrlQueryParams),
      exceptIsOk (parse_query_params_go pairs st) = pairs.all pair_ok
  | [], st => by simp [parse_query_params_go, exceptIsOk]
  | (k, v) :: rest, st => by
    rw [parse_query_params_go]
    simp only [List.all_cons]
    by_cases h1 : k = "pgbouncer"
    · subst h1
      have hpok : pair_ok ("pgbouncer", v) = (parse_bool v).isSome := rfl
      cases hb : parse_bool v
      · simp [hpok, hb, exceptIsOk]
      · simp [hpok, hb, parse_query_params_go_isOk rest]
    rw [if_neg h1]
    by_cases h2 : k = "sslmode"
    · subst h2
      have hpok : pair_ok ("sslmode", v) = true := rfl
      simp [hpok, parse_query_params_go_isOk rest]
    rw [if_neg h2]
    by_cases h3 : k = "sslcert"
    · subst h3
      have hpok : pair_ok ("sslcert", v) = true := rfl
      simp [hpok, parse_query_params_go_isOk rest]
    rw [if_neg h3]
    by_cases h4 : k = "sslidentity"
    · subst h4
      have hpok : pair_ok ("sslidentity", v) = true := rfl
      simp [hpok, parse_query_params_go_isOk rest]
    rw [if_neg h4]
    by_cases h5 : k = "sslpassword"
    · subst h5
      have hpok : pair_ok ("sslpassword", v) = true := rfl
      simp [hpok, parse_query_params_go_isOk rest]
    rw [if_neg h5]
    by_cases h6 : k = "statement_cache_size"
    · subst h6
      have hpok : pair_ok ("statement_cache_size", v) = (parse_unsigned v).isSome := rfl
      cases hn : parse_unsigned v
      · simp [hpok, hn, exceptIsOk]
      · simp [hpok, hn, parse_query_params_go_isOk rest]
    rw [if_neg h6]
    by_cases h7 : k = "sslaccept"
    · subst h7
      have hpok : pair_ok ("sslaccept", v) = true := rfl
      simp [hpok, parse_query_params_go_isOk rest]
    rw [if_neg h7]
    by_cases h8 : k = "schema"
    · subst h8
      have hpok : pair_ok ("schema", v) = true := rfl
      simp [hpok, parse_query_params_go_isOk rest]
    rw [if_neg h8]
    by_cases h9 : k = "connection_limit"
    · subst h9
      have hpok : pair_ok ("connection_limit", v) = (parse_unsigned v).isSome := rfl
      cases hn : parse_unsigned v
      · simp [hpok, hn, exceptIsOk]
      · simp [hpok, hn, parse_query_params_go_isOk rest]
    rw [if_neg h9]
    by_cases h10 : k = "host"
    · subst h10
      have hpok : pair_ok ("host", v) = true := rfl
      simp [hpok, parse_query_params_go_isOk rest]
    rw [if_neg h10]
    by_cases h11 : k = "socket_timeout"
    · subst h11
      have hpok : pair_ok ("socket_timeout", v) = (parse_unsigned v).isSome := rfl
      cases hn : parse_unsigned v
      · simp [hpok, hn, exceptIsOk]
      · simp [hpok, hn, parse_query_params_go_isOk rest]
    rw [if_neg h11]
    by_cases h12 : k = "connect_timeout"
    · subst h12
      have hpok : pair_ok ("connect_timeout", v) = (parse_unsigned v).isSome := rfl
      cases hn : parse_unsigned v
      · simp [hpok, hn, exceptIsOk]
      · simp [hpok, hn, parse_query_params_go_isOk rest]
    rw [if_neg h12]
    simp [pair_ok, h1, h6, h9, h11, h12, parse_query_params_go_isOk rest]

/-- Every error the loop can produce is `InvalidConnectionArguments`. -/
theorem parse_query_params_go_error :
    ∀ (pairs : List (String × String)) (st : PostgresUrlQueryParams) (e : Error),
      parse_query_params_go pairs st = .error e →
        e = Error.build .invalidConnectionArguments
  | [], _, e => by simp [parse_query_params_go]
  | (k, v) :: rest, st, e => by
    rw [parse_query_params_go]
    by_cases h1 : k = "pgbouncer"
    · rw [if_pos h1]
      cases hb : parse_bool v
      · exact fun he => (Except.error.inj he).symm
      · exact parse_query_params_go_error rest _ e
    rw [if_neg h1]
    by_cases h2 : k = "sslmode"
    · rw [if_pos h2]; exact parse_query_params_go_error rest _ e
    rw [if_neg h2]
    by_cases h3 : k = "sslcert"
    · rw [if_pos h3]; exact parse_query_params_go_error rest _ e
    rw [if_neg h3]
    by_cases h4 : k = "sslidentity"
    · rw [if_pos h4]; exact parse_query_params_go_error rest _ e
    rw [if_neg h4]
    by_cases h5 : k = "sslpassword"
    · rw [if_pos h5]; exact parse_query_params_go_error rest _ e
    rw [if_neg h5]
    by_cases h6 : k = "statement_cache_size"
    · rw [if_pos h6]
      cases hn : parse_unsigned v
      · exact fun he => (Except.error.inj he).symm
      · exact parse_query_params_go_error rest _ e
    rw [if_neg h6]
    by_cases h7 : k = "sslaccept"
    · rw [if_pos h7]; exact parse_query_params_go_error rest _ e
    rw [if_neg h7]
    by_cases h8 : k = "schema"
    · rw [if_pos h8]; exact parse_query_params_go_error rest _ e
    rw [if_neg h8]
    by_cases h9 : k = "connection_limit"
    · rw [if_pos h9]
      cases hn : parse_unsigned v
      · exact fun he => (Except.error.inj he).symm
      · exact parse_query_params_go_error rest _ e
    rw [if_neg h9]
    by_cases h10 : k = "host"
    · rw [if_pos h10]; exact parse_query_params_go_error rest _ e
    rw [if_neg h10]
    by_cases h11 : k = "socket_timeout"
    · rw [if_pos h11]
      cases hn : parse_unsigned v
      · exact fun he => (Except.error.inj he).symm
      · exact parse_query_params_go_error rest _ e
    rw [if_neg h11]
    by_cases h12 : k = "connect_timeout"
    · rw [if_pos h12]
      cases hn : parse_unsigned v
      · exact fun he => (Except.error.inj he).symm
      · exact parse_query_params_go_error rest _ e
    rw [if_neg h12]
    exact parse_query_params_go_error rest _ e

/-- C10: for the recognized PostgreSQL URL options `pgbouncer`,
`statement_cache_size`, `connection_limit`, `socket_timeout` and
`connect_timeout`, a value that does not parse as the expected type
(`pair_ok` is `false` exactly for such pairs) makes `PostgresUrl::new`
return an `InvalidConnectionArguments` error, whereas a query list whose
every pair parses - in particular one containing any unrecognized option
keys, for which `pair_ok` is always `true` - never causes an error. -/
theorem postgres_url_new_option_errors (pairs : List (String × String)) :
    (∀ kv, kv ∈ pairs → pair_ok kv = false →
        PostgresUrl.new pairs = .error (Error.build .invalidConnectionArguments)) ∧
    ((∀ kv, kv ∈ pairs → pair_ok kv = true) →
        ∃ u, PostgresUrl.new pairs = .ok u) := by
  constructor
  · intro kv hmem hbad
    have hall : pairs.all pair_ok = false :=
      List.all_eq_false.mpr ⟨kv, hmem, by simp [hbad]⟩
    have hko : exceptIsOk (parse_query_params_go pairs initialQueryParams) = false := by
      rw [parse_query_params_go_isOk]; exact hall
    rw [PostgresUrl.new, parse_query_params]
    cases hres : parse_query_params_go pairs initialQueryParams with
    | ok p => rw [hres] at hko; simp [exceptIsOk] at hko
    | error e =>
      have he := parse_query_params_go_error pairs initialQueryParams e hres
      subst he; rfl
  · intro hall
    have hallb : pairs.all pair_ok = true :=
      List.all_eq_true.mpr fun x hx => by simp [hall x hx]
    have hko : exceptIsOk (parse_query_params_go pairs initialQueryParams) = true := by
      rw [parse_query_params_go_isOk]; exact hallb
    rw [PostgresUrl.new, parse_query_params]
    cases hres : parse_query_params_go pairs initialQueryParams with
    | ok p => exact ⟨_, rfl⟩
    | error e => rw [hres] at hko; simp [exceptIsOk] at hko

theorem postgres_url_new_option_errors_witness :
    PostgresUrl.new [("pgbouncer", "yes")] =
      .error (Error.build .invalidConnectionArguments) ∧
    ∃ u, PostgresUrl.new
        [("unknown_option", "whatever"), ("connection_limit", "7")] = .ok u :=
  ⟨(postgres_url_new_option_errors [("pgbouncer", "yes")]).1 ("pgbouncer", "yes")
      (by decide) (by decide),
   (postgres_url_new_option_errors
      [("unknown_option", "whatever"), ("connection_limit", "7")]).2 (by decide)⟩
